import Mathlib

/-!
# Verification of the PowerPoint-generator MCP server registry and handlers

Shallow embedding of `src/index.ts`: the two module-level registries
(`instances`, `slides`), the seven tool handlers, and the zod argument
schemas.  External collaborators (the `pptxgenjs` rendering library, the
file system, `nanoid`) are modelled as oracle parameters: fresh ids and
the success/failure of a collaborator call are inputs to each handler.
Numbers (`z.number()`) are modelled as rationals; strings as `String`.
-/

namespace PptxMcp

/-- Association-list lookup, mirroring JS `m[k]` on a `Record<string, T>`
(`none` plays the role of `undefined`, which is falsy). -/
def lookupKey {α : Type} : List (String × α) → String → Option α
  | [], _ => none
  | (k, v) :: rest, key => if k = key then some v else lookupKey rest key

/-- Association-list insertion, mirroring JS `m[k] = v` (overwrite if the
key is present, append otherwise). -/
def setKey {α : Type} : List (String × α) → String → α → List (String × α)
  | [], key, v => [(key, v)]
  | (k, w) :: rest, key, v =>
      if k = key then (key, v) :: rest else (k, w) :: setKey rest key v

/-- Association-list deletion, mirroring JS `delete m[k]`. -/
def eraseKey {α : Type} : List (String × α) → String → List (String × α)
  | [], _ => []
  | (k, w) :: rest, key =>
      if k = key then eraseKey rest key else (k, w) :: eraseKey rest key

/-- The metadata held by one `pptxgen` instance, as set by the
`create-presentation` handler (`pptx.title = title; ...`). -/
structure Document where
  title : String
  subject : String
  author : String
  company : String
  revision : String
  rtlMode : Bool
  deriving Repr, DecidableEq

/-- A `pptxgen.Slide` handle.  The handle produced by `pptx.addSlide()`
belongs to the instance it was created from; we record that instance's
registry id as `parent`. -/
structure Slide where
  parent : String
  deriving Repr, DecidableEq

/-- The module-level mutable state of the server: the two registries
`instances : Record<string, pptxgen>` and
`slides : Record<string, pptxgen.Slide>`. -/
structure ServerState where
  instances : List (String × Document)
  slides : List (String × Slide)
  deriving Repr, DecidableEq

/-- The initial state: both registries start as empty objects. -/
def initState : ServerState := ⟨[], []⟩

/-- The uniform MCP call-result envelope: a list of text payloads plus the
`isError` flag. -/
structure Envelope where
  content : List String
  isError : Bool
  deriving Repr, DecidableEq

/-- The result of one tool call as seen by the transport: either a schema
validation rejection (zod refuses the arguments before the handler body
runs) or the handler's result envelope. -/
inductive CallResult where
  | invalid
  | reply (env : Envelope)
  deriving Repr, DecidableEq

/-! ## encodeURIComponent (modelled JS builtin) -/

/-- UTF-8 encoding of one character, as a list of byte values. -/
def utf8Bytes (c : Char) : List Nat :=
  let n := c.toNat
  if n < 128 then [n]
  else if n < 2048 then [192 + n / 64, 128 + n % 64]
  else if n < 65536 then [224 + n / 4096, 128 + (n / 64) % 64, 128 + n % 64]
  else [240 + n / 262144, 128 + (n / 4096) % 64, 128 + (n / 64) % 64, 128 + n % 64]

/-- The bytes `encodeURIComponent` leaves unescaped besides the
alphanumerics: `- _ . ! ~ * ' ( )`. -/
def uriMarkBytes : List Nat := [45, 95, 46, 33, 126, 42, 39, 40, 41]

/-- Whether `encodeURIComponent` leaves the byte `b` unescaped. -/
def isUriUnreservedByte (b : Nat) : Bool :=
  (65 ≤ b && b ≤ 90) || (97 ≤ b && b ≤ 122) || (48 ≤ b && b ≤ 57) ||
    uriMarkBytes.contains b

/-- Upper-case hexadecimal digit for `n < 16`. -/
def hexUpperDigit (n : Nat) : Char :=
  if n < 10 then Char.ofNat (48 + n) else Char.ofNat (55 + n)

/-- Percent-encoding of one byte. -/
def percentEncodeByte (b : Nat) : String :=
  if isUriUnreservedByte b then String.singleton (Char.ofNat b)
  else "%" ++ String.singleton (hexUpperDigit (b / 16)) ++
       String.singleton (hexUpperDigit (b % 16))

/-- Model of the ECMAScript builtin `encodeURIComponent`: percent-encode
every UTF-8 byte outside the unreserved set, with upper-case hex digits. -/
def encodeURIComponent (s : String) : String :=
  String.join (((s.data.map utf8Bytes).flatten).map percentEncodeByte)

/-! ## create-presentation and add-slide -/

/-- The parsed arguments of `create-presentation` (zod has already applied
the declared defaults to absent optional fields). -/
structure CreateArgs where
  title : String
  subject : String
  author : String
  company : String
  revision : String
  rtl : Bool
  deriving Repr, DecidableEq

/-- The not-found message shared by `add-slide` and `get-file-url`. -/
def presentationNotFoundMsg (id : String) : String :=
  "PowerPoint presentation \"" ++ id ++ "\" not found, please create it first."

/-- The not-found message shared by the four element handlers. -/
def slideNotFoundMsg (slideId : String) : String :=
  "Slide \"" ++ slideId ++ "\" not found, please create it first."

/-- The `create-presentation` handler: builds a fresh `pptxgen` instance
from the arguments, stores it under the fresh id produced by `nanoid()`
(passed in as `freshId`), and confirms. -/
def createPresentation (a : CreateArgs) (freshId : String) (s : ServerState) :
    Envelope × ServerState :=
  (⟨["PowerPoint presentation \"" ++ freshId ++ "\" created."], false⟩,
   ⟨setKey s.instances freshId
      ⟨a.title, a.subject, a.author, a.company, a.revision, a.rtl⟩,
    s.slides⟩)

/-- The `add-slide` handler: not-found error envelope if the presentation
id is absent; otherwise `pptx.addSlide()` produces a slide handle stored
under the fresh id produced by `nanoid()` (passed in as `freshSlideId`). -/
def addSlideOp (id freshSlideId : String) (s : ServerState) :
    Envelope × ServerState :=
  match lookupKey s.instances id with
  | none => (⟨[presentationNotFoundMsg id], true⟩, s)
  | some _ =>
      (⟨["Slide \"" ++ freshSlideId ++ "\" added to presentation \"" ++ id ++ "\"."],
        false⟩,
       ⟨s.instances, setKey s.slides freshSlideId ⟨id⟩⟩)

/-! ## get-file-url -/

/-- The effective title used by `get-file-url`: `pptx.title || "PowerPoint
Presentation"` (the empty string is the only falsy string). -/
def effectiveTitle (t : String) : String :=
  if t = "" then "PowerPoint Presentation" else t

/-- The download URL built by the `get-file-url` handler. -/
def fileUrlString (port : Nat) (title id : String) : String :=
  "http://localhost:" ++ toString port ++ "/" ++ encodeURIComponent title ++
    "-" ++ id ++ ".pptx"

/-- The second payload of a successful `get-file-url` call. -/
def relayNoteString (port : Nat) (title id : String) : String :=
  "NOTE: The user cannot see this link, you need to explicitly send this link to the user.It is recommended to send using the following format: [Download " ++
    title ++ ".pptx](" ++ fileUrlString port title id ++ ")"

/-- The `get-file-url` handler.  `writeRes` is the outcome of the awaited
`pptx.writeFile` collaborator call (`Except.error e` models a thrown
exception with message `e`).  On success the handler deletes
`instances[id]` and `slides[id]` — note both deletions use the document
id — and returns the URL plus the relay note; on failure nothing is
deleted. -/
def getFileUrl (id : String) (port : Nat) (writeRes : Except String Unit)
    (s : ServerState) : Envelope × ServerState :=
  match lookupKey s.instances id with
  | none => (⟨[presentationNotFoundMsg id], true⟩, s)
  | some doc =>
      let title := effectiveTitle doc.title
      match writeRes with
      | .ok _ =>
          (⟨[fileUrlString port title id, relayNoteString port title id], false⟩,
           ⟨eraseKey s.instances id, eraseKey s.slides id⟩)
      | .error e =>
          (⟨["Error saving PowerPoint presentation \"" ++ id ++ "\": " ++ e],
            true⟩, s)

/-! ## Element-operation argument bundles (parsed zod output) -/

/-- The vertical canvas bound `5.5` of the zod schemas, as an exact
rational (`11/2`). -/
def yMax : ℚ := Rat.divInt 11 2

/-- Horizontal coordinate/width bound: `z.number().min(0).max(10)`. -/
def xBound (v : ℚ) : Prop := 0 ≤ v ∧ v ≤ 10

/-- Vertical coordinate/height bound: `z.number().min(0).max(5.5)`. -/
def yBound (v : ℚ) : Prop := 0 ≤ v ∧ v ≤ yMax

instance : DecidablePred xBound := fun v => by unfold xBound; infer_instance
instance : DecidablePred yBound := fun v => by unfold yBound; infer_instance

/-- A constraint on an optional field: absent fields pass. -/
def optHolds {α : Type} (p : α → Prop) : Option α → Prop
  | none => True
  | some x => p x

instance {α : Type} (p : α → Prop) [i : DecidablePred p] :
    (o : Option α) → Decidable (optHolds p o)
  | none => isTrue trivial
  | some x => i x

/-- The add-text alignment enum: `z.enum(["left", "center", "right", "justify"])`. -/
def textAligns : List String := ["left", "center", "right", "justify"]

/-- The add-table and add-shape alignment enum: `z.enum(["left", "center", "right"])`. -/
def lcrAligns : List String := ["left", "center", "right"]

/-- The border type enum: `z.enum(["none", "solid", "dash"])`. -/
def borderTypes : List String := ["none", "solid", "dash"]

/-- The dash styles accepted for a shape's line. -/
def dashTypes : List String :=
  ["dash", "dashDot", "lgDash", "lgDashDot", "lgDashDotDot", "solid",
   "sysDash", "sysDot"]

/-- The arrow endpoint styles accepted for a shape's line. -/
def arrowTypes : List String :=
  ["arrow", "diamond", "oval", "stealth", "triangle", "none"]

/-- Modelled from the spec: the fixed closed set of shape kinds
(`SHAPE_TYPE` lives in `src/constant.ts`, which is not part of the
provided sources; the spec only requires a fixed closed set, here taken
as common `pptxgenjs` shape names). -/
def SHAPE_TYPE : List String :=
  ["rect", "roundRect", "ellipse", "triangle", "line", "rightArrow",
   "leftArrow", "upArrow", "downArrow", "diamond", "hexagon", "octagon",
   "star5", "heart", "cloud", "pie"]

/-- Modelled from the spec: the fixed closed set of chart kinds
(`CHART_TYPE` lives in `src/constant.ts`, which is not part of the
provided sources; the spec only requires a fixed closed set, here taken
as the `pptxgenjs` chart names). -/
def CHART_TYPE : List String :=
  ["area", "bar", "bar3D", "bubble", "bubble3D", "doughnut", "line",
   "pie", "pyramid", "radar", "scatter"]

/-- A fill option bag: `{ color, transparency? }`. -/
structure FillOpts where
  color : String
  transparency : Option ℚ
  deriving Repr, DecidableEq

/-- Schema constraint on a fill: transparency in `[0, 100]`. -/
def fillValid (f : FillOpts) : Prop :=
  optHolds (fun t => 0 ≤ t ∧ t ≤ 100) f.transparency

instance : DecidablePred fillValid := fun f => by unfold fillValid; infer_instance

/-- A table border option bag: `{ type, pt, color }`. -/
structure TableBorder where
  type : String
  pt : ℚ
  color : String
  deriving Repr, DecidableEq

/-- Schema constraint on a border: enumerated type, thickness in
`[0, 10]`. -/
def borderValid (b : TableBorder) : Prop :=
  b.type ∈ borderTypes ∧ 0 ≤ b.pt ∧ b.pt ≤ 10

instance : DecidablePred borderValid := fun b => by
  unfold borderValid; infer_instance

/-- A shape line option bag. -/
structure LineOpts where
  color : String
  dashType : String
  beginArrowType : String
  endArrowType : String
  transparency : ℚ
  width : ℚ
  deriving Repr, DecidableEq

/-- Schema constraint on a shape line: enumerated styles,
transparency in `[0, 100]`, width in `[1, 256]`. -/
def lineValid (l : LineOpts) : Prop :=
  l.dashType ∈ dashTypes ∧ l.beginArrowType ∈ arrowTypes ∧
    l.endArrowType ∈ arrowTypes ∧ (0 ≤ l.transparency ∧ l.transparency ≤ 100) ∧
    (1 ≤ l.width ∧ l.width ≤ 256)

instance : DecidablePred lineValid := fun l => by unfold lineValid; infer_instance

/-- Per-cell option bag of a table cell. -/
structure TableCellOpts where
  align : Option String
  bold : Bool
  border : Option TableBorder
  color : Option String
  fill : Option FillOpts
  fontSize : ℚ
  fontFace : Option String
  deriving Repr, DecidableEq

/-- Schema constraint on the options of one cell. -/
def cellOptsValid (o : TableCellOpts) : Prop :=
  optHolds (· ∈ lcrAligns) o.align ∧ optHolds borderValid o.border ∧
    optHolds fillValid o.fill

instance : DecidablePred cellOptsValid := fun o => by
  unfold cellOptsValid; infer_instance

/-- One table cell: `{ text, options? }`. -/
structure TableCell where
  text : String
  options : Option TableCellOpts
  deriving Repr, DecidableEq

/-- One chart data series: `{ name, labels, values }`. -/
structure ChartSeries where
  name : String
  labels : List String
  values : List ℚ
  deriving Repr, DecidableEq

/-- Parsed arguments of `add-text` (defaults applied; note the schema
field is spelled `FontFace` in the source). -/
structure AddTextArgs where
  slideId : String
  text : String
  x : ℚ
  y : ℚ
  w : ℚ
  h : ℚ
  align : Option String
  bold : Bool
  color : Option String
  FontFace : Option String
  fontSize : ℚ
  deriving Repr, DecidableEq

/-- The zod schema constraints of `add-text`. -/
def AddTextValid (a : AddTextArgs) : Prop :=
  xBound a.x ∧ yBound a.y ∧ xBound a.w ∧ yBound a.h ∧
    optHolds (· ∈ textAligns) a.align

instance (a : AddTextArgs) : Decidable (AddTextValid a) := by
  unfold AddTextValid; infer_instance

/-- Parsed arguments of `add-table`. -/
structure AddTableArgs where
  slideId : String
  data : List (List TableCell)
  x : ℚ
  y : ℚ
  w : ℚ
  h : ℚ
  colW : Option (List ℚ)
  rowH : Option (List ℚ)
  align : Option String
  bold : Bool
  border : Option TableBorder
  color : Option String
  fill : Option FillOpts
  fontSize : ℚ
  fontFace : Option String
  deriving Repr, DecidableEq

/-- The zod schema constraints of `add-table`. -/
def AddTableValid (a : AddTableArgs) : Prop :=
  (∀ row ∈ a.data, ∀ cell ∈ row, optHolds cellOptsValid cell.options) ∧
    xBound a.x ∧ yBound a.y ∧ xBound a.w ∧ yBound a.h ∧
    optHolds (fun l => ∀ v ∈ l, xBound v) a.colW ∧
    optHolds (fun l => ∀ v ∈ l, yBound v) a.rowH ∧
    optHolds (· ∈ lcrAligns) a.align ∧
    optHolds borderValid a.border ∧
    optHolds fillValid a.fill

instance (a : AddTableArgs) : Decidable (AddTableValid a) := by
  unfold AddTableValid; infer_instance

/-- Parsed arguments of `add-shape`. -/
structure AddShapeArgs where
  slideId : String
  shape : String
  x : ℚ
  y : ℚ
  w : ℚ
  h : ℚ
  align : Option String
  flipH : Bool
  flipV : Bool
  line : Option LineOpts
  rectRadius : Option ℚ
  rotate : Option ℚ
  fill : Option FillOpts
  deriving Repr, DecidableEq

/-- The zod schema constraints of `add-shape`. -/
def AddShapeValid (a : AddShapeArgs) : Prop :=
  a.shape ∈ SHAPE_TYPE ∧ xBound a.x ∧ yBound a.y ∧ xBound a.w ∧ yBound a.h ∧
    optHolds (· ∈ lcrAligns) a.align ∧
    optHolds lineValid a.line ∧
    optHolds (fun r => 0 ≤ r ∧ r ≤ 1) a.rectRadius ∧
    optHolds (fun r => -360 ≤ r ∧ r ≤ 360) a.rotate ∧
    optHolds fillValid a.fill

instance (a : AddShapeArgs) : Decidable (AddShapeValid a) := by
  unfold AddShapeValid; infer_instance

/-- Parsed arguments of `add-chart`. -/
structure AddChartArgs where
  slideId : String
  chartType : String
  data : List ChartSeries
  x : ℚ
  y : ℚ
  w : ℚ
  h : ℚ
  deriving Repr, DecidableEq

/-- The zod schema constraints of `add-chart`. -/
def AddChartValid (a : AddChartArgs) : Prop :=
  a.chartType ∈ CHART_TYPE ∧ xBound a.x ∧ yBound a.y ∧ xBound a.w ∧ yBound a.h

instance (a : AddChartArgs) : Decidable (AddChartValid a) := by
  unfold AddChartValid; infer_instance

/-! ## Options objects handed to the rendering collaborator

Each structure lists every option key the corresponding `pptxgenjs`
method understands among the tool's schema fields; a key the handler's
object literal does not mention is `none` (JS `undefined`). -/

/-- The options object passed to `slide.addText`. -/
structure TextPassedOpts where
  x : ℚ
  y : ℚ
  w : ℚ
  h : ℚ
  align : Option String
  bold : Bool
  color : Option String
  fontSize : ℚ
  fontFace : Option String
  deriving Repr, DecidableEq

/-- The options object passed to `slide.addTable`. -/
structure TablePassedOpts where
  x : ℚ
  y : ℚ
  w : ℚ
  h : ℚ
  colW : Option (List ℚ)
  rowH : Option (List ℚ)
  align : Option String
  bold : Bool
  border : Option TableBorder
  color : Option String
  fill : Option FillOpts
  fontSize : ℚ
  fontFace : Option String
  deriving Repr, DecidableEq

/-- The options object passed to `slide.addShape`. -/
structure ShapePassedOpts where
  x : ℚ
  y : ℚ
  w : ℚ
  h : ℚ
  align : Option String
  flipH : Option Bool
  flipV : Option Bool
  line : Option LineOpts
  rectRadius : Option ℚ
  rotate : Option ℚ
  fill : Option FillOpts
  deriving Repr, DecidableEq

/-- The options object passed to `slide.addChart`. -/
structure ChartPassedOpts where
  x : ℚ
  y : ℚ
  w : ℚ
  h : ℚ
  deriving Repr, DecidableEq

/-- One invocation of the rendering collaborator, recording exactly the
payload and options object the handler hands over. -/
inductive PlacedCall where
  | text (body : String) (o : TextPassedOpts)
  | table (data : List (List TableCell)) (o : TablePassedOpts)
  | shape (shape : String) (o : ShapePassedOpts)
  | chart (chartType : String) (data : List ChartSeries) (o : ChartPassedOpts)
  deriving Repr, DecidableEq

/-- The options object the `add-text` handler builds:
`{ x, y, w, h, align, bold, color, fontSize }` — the validated `FontFace`
is not mentioned. -/
def textPassedOpts (a : AddTextArgs) : TextPassedOpts :=
  { x := a.x, y := a.y, w := a.w, h := a.h, align := a.align, bold := a.bold,
    color := a.color, fontSize := a.fontSize, fontFace := none }

/-- The options object the `add-table` handler builds (all validated
fields are forwarded). -/
def tablePassedOpts (a : AddTableArgs) : TablePassedOpts :=
  { x := a.x, y := a.y, w := a.w, h := a.h, colW := a.colW, rowH := a.rowH,
    align := a.align, bold := a.bold, border := a.border, color := a.color,
    fill := a.fill, fontSize := a.fontSize, fontFace := a.fontFace }

/-- The options object the `add-shape` handler builds:
`{ x, y, w, h, fill }` — the validated `align`, `flipH`, `flipV`, `line`,
`rectRadius` and `rotate` are not mentioned. -/
def shapePassedOpts (a : AddShapeArgs) : ShapePassedOpts :=
  { x := a.x, y := a.y, w := a.w, h := a.h, align := none, flipH := none,
    flipV := none, line := none, rectRadius := none, rotate := none,
    fill := a.fill }

/-- The options object the `add-chart` handler builds: `{ x, y, w, h }`. -/
def chartPassedOpts (a : AddChartArgs) : ChartPassedOpts :=
  { x := a.x, y := a.y, w := a.w, h := a.h }

/-! ## Dispatch of the four element operations

`rr` is the outcome of the collaborator call (`.error e` models a thrown
exception with message `e`).  The third component records the collaborator
invocation, if any; the schema validator rejects non-conforming arguments
before the handler body (and hence before any registry lookup or
collaborator call). -/

/-- Validation plus the `add-text` handler. -/
def dispatchAddText (a : AddTextArgs) (rr : Except String Unit)
    (s : ServerState) : CallResult × ServerState × Option PlacedCall :=
  if AddTextValid a then
    match lookupKey s.slides a.slideId with
    | none => (.reply ⟨[slideNotFoundMsg a.slideId], true⟩, s, none)
    | some _ =>
        match rr with
        | .ok _ =>
            (.reply ⟨["Text box added to slide \"" ++ a.slideId ++ "\"."],
              false⟩, s, some (.text a.text (textPassedOpts a)))
        | .error e =>
            (.reply ⟨["Error adding text to slide \"" ++ a.slideId ++ "\": " ++ e],
              true⟩, s, some (.text a.text (textPassedOpts a)))
  else (.invalid, s, none)

/-- Validation plus the `add-table` handler. -/
def dispatchAddTable (a : AddTableArgs) (rr : Except String Unit)
    (s : ServerState) : CallResult × ServerState × Option PlacedCall :=
  if AddTableValid a then
    match lookupKey s.slides a.slideId with
    | none => (.reply ⟨[slideNotFoundMsg a.slideId], true⟩, s, none)
    | some _ =>
        match rr with
        | .ok _ =>
            (.reply ⟨["Table added to slide \"" ++ a.slideId ++ "\"."],
              false⟩, s, some (.table a.data (tablePassedOpts a)))
        | .error e =>
            (.reply ⟨["Error adding table to slide \"" ++ a.slideId ++ "\": " ++ e],
              true⟩, s, some (.table a.data (tablePassedOpts a)))
  else (.invalid, s, none)

/-- Validation plus the `add-shape` handler. -/
def dispatchAddShape (a : AddShapeArgs) (rr : Except String Unit)
    (s : ServerState) : CallResult × ServerState × Option PlacedCall :=
  if AddShapeValid a then
    match lookupKey s.slides a.slideId with
    | none => (.reply ⟨[slideNotFoundMsg a.slideId], true⟩, s, none)
    | some _ =>
        match rr with
        | .ok _ =>
            (.reply ⟨["Shape added to slide \"" ++ a.slideId ++ "\"."],
              false⟩, s, some (.shape a.shape (shapePassedOpts a)))
        | .error e =>
            (.reply ⟨["Error adding shape to slide \"" ++ a.slideId ++ "\": " ++ e],
              true⟩, s, some (.shape a.shape (shapePassedOpts a)))
  else (.invalid, s, none)

/-- Validation plus the `add-chart` handler. -/
def dispatchAddChart (a : AddChartArgs) (rr : Except String Unit)
    (s : ServerState) : CallResult × ServerState × Option PlacedCall :=
  if AddChartValid a then
    match lookupKey s.slides a.slideId with
    | none => (.reply ⟨[slideNotFoundMsg a.slideId], true⟩, s, none)
    | some _ =>
        match rr with
        | .ok _ =>
            (.reply ⟨["Chart added to slide \"" ++ a.slideId ++ "\"."],
              false⟩, s, some (.chart a.chartType a.data (chartPassedOpts a)))
        | .error e =>
            (.reply ⟨["Error adding chart to slide \"" ++ a.slideId ++ "\": " ++ e],
              true⟩, s, some (.chart a.chartType a.data (chartPassedOpts a)))
  else (.invalid, s, none)

/-! ## Operation traces -/

/-- One tool call together with its oracle inputs (fresh ids from
`nanoid()`, collaborator outcomes, the file-server port). -/
inductive Op where
  | create (a : CreateArgs) (freshId : String)
  | addSlide (id freshSlideId : String)
  | addText (a : AddTextArgs) (rr : Except String Unit)
  | addTable (a : AddTableArgs) (rr : Except String Unit)
  | addShape (a : AddShapeArgs) (rr : Except String Unit)
  | addChart (a : AddChartArgs) (rr : Except String Unit)
  | fileUrl (id : String) (port : Nat) (writeRes : Except String Unit)

/-- The state transition of one tool call. -/
def step (s : ServerState) : Op → ServerState
  | .create a fid => (createPresentation a fid s).2
  | .addSlide id sid => (addSlideOp id sid s).2
  | .addText a rr => (dispatchAddText a rr s).2.1
  | .addTable a rr => (dispatchAddTable a rr s).2.1
  | .addShape a rr => (dispatchAddShape a rr s).2.1
  | .addChart a rr => (dispatchAddChart a rr s).2.1
  | .fileUrl id port wr => (getFileUrl id port wr s).2

/-- The state reached by a sequence of tool calls from server start. -/
def run (ops : List Op) : ServerState := ops.foldl step initState

/-- Decidable form of the claimed registry invariant: every slide in the
slide registry has its parent document still in the document registry. -/
def slideParentsLive (s : ServerState) : Bool :=
  s.slides.all fun pr => (lookupKey s.instances pr.2.parent).isSome

/-! ## Spec-side option bundles (for refinement comparison only)

These two definitions follow the spec's words — "delegates element
placement to the rendering collaborator with the validated options
bundle" — not the source; they are compared against `shapePassedOpts`
and `textPassedOpts`. -/

/-- Following the spec: the full validated `add-shape` bundle, including
`align`, `flipH`, `flipV`, `line`, `rectRadius`, `rotate` and `fill`. -/
def specShapeFullOpts (a : AddShapeArgs) : ShapePassedOpts :=
  { x := a.x, y := a.y, w := a.w, h := a.h, align := a.align,
    flipH := some a.flipH, flipV := some a.flipV, line := a.line,
    rectRadius := a.rectRadius, rotate := a.rotate, fill := a.fill }

/-- Following the spec: the full validated `add-text` bundle, including
the font face. -/
def specTextFullOpts (a : AddTextArgs) : TextPassedOpts :=
  { x := a.x, y := a.y, w := a.w, h := a.h, align := a.align,
    bold := a.bold, color := a.color, fontSize := a.fontSize,
    fontFace := a.FontFace }

/-- Replace the `pt` of the top-level border of an `add-table` call,
leaving every other field untouched. -/
def setBorderPt (a : AddTableArgs) (p : ℚ) : AddTableArgs :=
  { a with border := a.border.map fun bo => { bo with pt := p } }

/-! ## Concrete example inputs used by witnesses and counterexamples -/

/-- A document as created with title "Demo" and the schema defaults. -/
def demoDoc : Document :=
  ⟨"Demo", "PowerPoint MCP Server", "PowerPoint MCP Server",
   "PowerPoint MCP Server", "1", false⟩

/-- A state holding the demo document under id `"d"` and one slide of it
under id `"s"`. -/
def demoState : ServerState := ⟨[("d", demoDoc)], [("s", ⟨"d"⟩)]⟩

/-- A state holding a document whose title is the empty string. -/
def emptyTitleState : ServerState :=
  ⟨[("d", ⟨"", "PowerPoint MCP Server", "PowerPoint MCP Server",
          "PowerPoint MCP Server", "1", false⟩)], []⟩

/-- A well-formed `add-text` argument bundle against slide `"s"`. -/
def demoTextArgs : AddTextArgs :=
  { slideId := "s", text := "Hello", x := 0, y := 0, w := 5, h := 1,
    align := some "center", bold := false, color := some "FF0000",
    FontFace := some "Arial", fontSize := 18 }

/-- Variant of `demoTextArgs` with the out-of-range position `x = -1`. -/
def textArgsNegX : AddTextArgs := { demoTextArgs with x := -1 }

/-- Variant of `demoTextArgs` with the out-of-range position `x = 10.01`. -/
def textArgsBigX : AddTextArgs := { demoTextArgs with x := Rat.divInt 1001 100 }

/-- A well-formed `add-table` argument bundle with a solid border. -/
def demoTableArgs : AddTableArgs :=
  { slideId := "s", data := [[⟨"cell", none⟩]], x := 1, y := 1, w := 4, h := 2,
    colW := none, rowH := none, align := some "left", bold := false,
    border := some ⟨"solid", 1, "000000"⟩, color := none, fill := none,
    fontSize := 18, fontFace := none }

/-- A well-formed `add-shape` argument bundle carrying every optional
shape option. -/
def demoShapeArgs : AddShapeArgs :=
  { slideId := "s", shape := "roundRect", x := 1, y := 1, w := 2, h := 2,
    align := some "center", flipH := true, flipV := false,
    line := some ⟨"00FF00", "dash", "arrow", "none", 0, 2⟩,
    rectRadius := some (Rat.divInt 1 2), rotate := some 90,
    fill := some ⟨"0000FF", none⟩ }

/-- A well-formed `add-chart` argument bundle. -/
def demoChartArgs : AddChartArgs :=
  { slideId := "s", chartType := "bar",
    data := [⟨"Series 1", ["a", "b"], [1, 2]⟩], x := 1, y := 1, w := 4, h := 3 }

/-- The trace create → add-slide → get-file-url, with fresh ids `"d"`
and `"s1"` and a successful file write. -/
def orphanTrace : List Op :=
  [.create ⟨"Demo", "PowerPoint MCP Server", "PowerPoint MCP Server",
            "PowerPoint MCP Server", "1", false⟩ "d",
   .addSlide "d" "s1",
   .fileUrl "d" 60000 (.ok ())]

end PptxMcp

namespace PptxMcp

/-- Deleting a key makes its lookup miss. -/
theorem lookupKey_eraseKey_self {α : Type} (m : List (String × α)) (k : String) :
    lookupKey (eraseKey m k) k = none := by
  induction m with
  | nil => rfl
  | cons hd tl ih =>
      obtain ⟨k', v⟩ := hd
      by_cases h : k' = k
      · simpa [eraseKey, h] using ih
      · simpa [eraseKey, lookupKey, h] using ih

/-- C4: `add-slide` on a document id absent from the registry returns the
not-found envelope with `isError = true`, leaves the state unchanged (the
handler is a total function — nothing is thrown to the transport), and
the message text contains the literal id. -/
theorem add_slide_unknown_id_errors (s : ServerState) (id fresh : String)
    (h : lookupKey s.instances id = none) :
    addSlideOp id fresh s = (⟨[presentationNotFoundMsg id], true⟩, s) ∧
      ∃ pre suf, presentationNotFoundMsg id = pre ++ id ++ suf := by
  constructor
  · simp [addSlideOp, h]
  · exact ⟨"PowerPoint presentation \"",
      "\" not found, please create it first.", rfl⟩

/-- Witness for C4 at the unknown id `"missing"` in the initial state. -/
theorem add_slide_unknown_id_errors_witness :
    addSlideOp "missing" "s0" initState =
        (⟨[presentationNotFoundMsg "missing"], true⟩, initState) ∧
      ∃ pre suf, presentationNotFoundMsg "missing" = pre ++ "missing" ++ suf :=
  add_slide_unknown_id_errors initState "missing" "s0" rfl

/-- C9: when the collaborator's file write throws, `get-file-url` returns
the error envelope and the state — in particular the document registry
entry for `id` — is left exactly as it was, so the id stays usable. -/
theorem get_file_url_write_failure_keeps_document (s : ServerState)
    (id : String) (port : Nat) (e : String) (doc : Document)
    (h : lookupKey s.instances id = some doc) :
    getFileUrl id port (.error e) s =
      (⟨["Error saving PowerPoint presentation \"" ++ id ++ "\": " ++ e],
        true⟩, s) := by
  simp [getFileUrl, h]

/-- Witness for C9: a failed write on the demo state changes nothing. -/
theorem get_file_url_write_failure_keeps_document_witness :
    getFileUrl "d" 60000 (.error "ENOSPC") demoState =
      (⟨["Error saving PowerPoint presentation \"" ++ "d" ++ "\": " ++ "ENOSPC"],
        true⟩, demoState) :=
  get_file_url_write_failure_keeps_document demoState "d" 60000 "ENOSPC"
    demoDoc rfl

/-- C10: the four element handlers never touch either registry — on
success, on a slide-not-found error, on a collaborator failure, and on a
validation rejection alike, the state they return is the input state. -/
theorem element_ops_preserve_registries :
    ∀ (s : ServerState) (rr : Except String Unit),
      (∀ a : AddTextArgs, (dispatchAddText a rr s).2.1 = s) ∧
      (∀ a : AddTableArgs, (dispatchAddTable a rr s).2.1 = s) ∧
      (∀ a : AddShapeArgs, (dispatchAddShape a rr s).2.1 = s) ∧
      (∀ a : AddChartArgs, (dispatchAddChart a rr s).2.1 = s) := by
  intro s rr
  refine ⟨fun a => ?_, fun a => ?_, fun a => ?_, fun a => ?_⟩
  · unfold dispatchAddText
    split
    · split
      · rfl
      · split <;> rfl
    · rfl
  · unfold dispatchAddTable
    split
    · split
      · rfl
      · split <;> rfl
    · rfl
  · unfold dispatchAddShape
    split
    · split
      · rfl
      · split <;> rfl
    · rfl
  · unfold dispatchAddChart
    split
    · split
      · rfl
      · split <;> rfl
    · rfl

/-- C6: arguments that violate an element operation's zod schema are
rejected as a transport-level validation failure; the handler body never
runs, no collaborator call is recorded, and both registries are returned
unchanged. -/
theorem invalid_args_rejected_without_effects (s : ServerState)
    (rr : Except String Unit) (ta : AddTextArgs) (tb : AddTableArgs)
    (th : AddShapeArgs) (tc : AddChartArgs)
    (ha : ¬ AddTextValid ta) (hb : ¬ AddTableValid tb)
    (hh : ¬ AddShapeValid th) (hc : ¬ AddChartValid tc) :
    dispatchAddText ta rr s = (.invalid, s, none) ∧
      dispatchAddTable tb rr s = (.invalid, s, none) ∧
      dispatchAddShape th rr s = (.invalid, s, none) ∧
      dispatchAddChart tc rr s = (.invalid, s, none) := by
  refine ⟨?_, ?_, ?_, ?_⟩
  · simp [dispatchAddText, ha]
  · simp [dispatchAddTable, hb]
  · simp [dispatchAddShape, hh]
  · simp [dispatchAddChart, hc]

/-- Witness for C6, one violating bundle per operation: add-text with
`x = -1`, add-table with `x = 10.01`, add-shape with a shape kind outside
the closed set, add-chart with a chart kind outside the closed set. -/
theorem invalid_args_rejected_without_effects_witness :
    dispatchAddText textArgsNegX (.ok ()) demoState =
        (.invalid, demoState, none) ∧
      dispatchAddTable { demoTableArgs with x := Rat.divInt 1001 100 } (.ok ())
          demoState = (.invalid, demoState, none) ∧
      dispatchAddShape { demoShapeArgs with shape := "dodecahedron" } (.ok ())
          demoState = (.invalid, demoState, none) ∧
      dispatchAddChart { demoChartArgs with chartType := "klein-bottle" }
          (.ok ()) demoState = (.invalid, demoState, none) :=
  invalid_args_rejected_without_effects demoState (.ok ()) textArgsNegX
    { demoTableArgs with x := Rat.divInt 1001 100 }
    { demoShapeArgs with shape := "dodecahedron" }
    { demoChartArgs with chartType := "klein-bottle" }
    (by decide) (by decide) (by decide) (by decide)

/-- C1: after any successful `get-file-url` call on id `id`, a second
`get-file-url` call with the same id — whatever port and write outcome —
returns the not-found envelope (`isError = true`) and leaves the
post-success state unchanged: a document id supports at most one
successful download. -/
theorem get_file_url_one_shot (s : ServerState) (id : String) (port : Nat)
    (wr : Except String Unit) (env : Envelope) (s' : ServerState)
    (h : getFileUrl id port wr s = (env, s')) (hok : env.isError = false)
    (port2 : Nat) (wr2 : Except String Unit) :
    getFileUrl id port2 wr2 s' = (⟨[presentationNotFoundMsg id], true⟩, s') := by
  have henv : (getFileUrl id port wr s).1 = env := congrArg Prod.fst h
  have hst : (getFileUrl id port wr s).2 = s' := congrArg Prod.snd h
  subst henv
  subst hst
  cases hl : lookupKey s.instances id with
  | none => simp [getFileUrl, hl] at hok
  | some doc =>
      cases wr with
      | error e => simp [getFileUrl, hl] at hok
      | ok u =>
          cases u
          simp [getFileUrl, hl, lookupKey_eraseKey_self]

/-- Witness for C1: finalize the demo document, then ask again. -/
theorem get_file_url_one_shot_witness :
    getFileUrl "d" 60000 (.ok ()) ((getFileUrl "d" 60000 (.ok ()) demoState).2) =
      (⟨[presentationNotFoundMsg "d"], true⟩,
       (getFileUrl "d" 60000 (.ok ()) demoState).2) :=
  get_file_url_one_shot demoState "d" 60000 (.ok ())
    (getFileUrl "d" 60000 (.ok ()) demoState).1
    (getFileUrl "d" 60000 (.ok ()) demoState).2 rfl (by decide) 60000 (.ok ())

/-- C5: when the rendering collaborator throws with message `e` during a
call on a registered slide, each of the four element handlers catches it
and answers with an application-level error envelope (`isError = true`)
whose text embeds `e`; nothing escapes to the transport. -/
theorem collaborator_failure_enveloped (s : ServerState) (e : String)
    (ta : AddTextArgs) (tb : AddTableArgs) (th : AddShapeArgs)
    (tc : AddChartArgs)
    (hva : AddTextValid ta) (hvb : AddTableValid tb)
    (hvh : AddShapeValid th) (hvc : AddChartValid tc)
    (hla : (lookupKey s.slides ta.slideId).isSome = true)
    (hlb : (lookupKey s.slides tb.slideId).isSome = true)
    (hlh : (lookupKey s.slides th.slideId).isSome = true)
    (hlc : (lookupKey s.slides tc.slideId).isSome = true) :
    (dispatchAddText ta (.error e) s).1 =
        .reply ⟨["Error adding text to slide \"" ++ ta.slideId ++ "\": " ++ e],
          true⟩ ∧
      (dispatchAddTable tb (.error e) s).1 =
        .reply ⟨["Error adding table to slide \"" ++ tb.slideId ++ "\": " ++ e],
          true⟩ ∧
      (dispatchAddShape th (.error e) s).1 =
        .reply ⟨["Error adding shape to slide \"" ++ th.slideId ++ "\": " ++ e],
          true⟩ ∧
      (dispatchAddChart tc (.error e) s).1 =
        .reply ⟨["Error adding chart to slide \"" ++ tc.slideId ++ "\": " ++ e],
          true⟩ := by
  obtain ⟨sa, hsa⟩ := Option.isSome_iff_exists.mp hla
  obtain ⟨sb, hsb⟩ := Option.isSome_iff_exists.mp hlb
  obtain ⟨sh, hsh⟩ := Option.isSome_iff_exists.mp hlh
  obtain ⟨sc, hsc⟩ := Option.isSome_iff_exists.mp hlc
  refine ⟨?_, ?_, ?_, ?_⟩
  · simp [dispatchAddText, hva, hsa]
  · simp [dispatchAddTable, hvb, hsb]
  · simp [dispatchAddShape, hvh, hsh]
  · simp [dispatchAddChart, hvc, hsc]

/-- Witness for C5 on the demo slide with a thrown "bad geometry". -/
theorem collaborator_failure_enveloped_witness :
    (dispatchAddText demoTextArgs (.error "bad geometry") demoState).1 =
        .reply ⟨["Error adding text to slide \"" ++ demoTextArgs.slideId ++
          "\": " ++ "bad geometry"], true⟩ ∧
      (dispatchAddTable demoTableArgs (.error "bad geometry") demoState).1 =
        .reply ⟨["Error adding table to slide \"" ++ demoTableArgs.slideId ++
          "\": " ++ "bad geometry"], true⟩ ∧
      (dispatchAddShape demoShapeArgs (.error "bad geometry") demoState).1 =
        .reply ⟨["Error adding shape to slide \"" ++ demoShapeArgs.slideId ++
          "\": " ++ "bad geometry"], true⟩ ∧
      (dispatchAddChart demoChartArgs (.error "bad geometry") demoState).1 =
        .reply ⟨["Error adding chart to slide \"" ++ demoChartArgs.slideId ++
          "\": " ++ "bad geometry"], true⟩ :=
  collaborator_failure_enveloped demoState "bad geometry" demoTextArgs
    demoTableArgs demoShapeArgs demoChartArgs (by decide) (by decide)
    (by decide) (by decide) (by decide) (by decide) (by decide) (by decide)

/-- C8 (amended): a successful `get-file-url` returns exactly two text
payloads — the URL built from the percent-encoded effective title (the
stored title, or `"PowerPoint Presentation"` when the stored title is
empty), a hyphen, the id and `.pptx`, and the relay instruction string. -/
theorem get_file_url_success_payloads (s : ServerState) (id : String)
    (port : Nat) (doc : Document)
    (h : lookupKey s.instances id = some doc) :
    ((getFileUrl id port (.ok ()) s).1).isError = false ∧
      ((getFileUrl id port (.ok ()) s).1).content =
        [fileUrlString port (effectiveTitle doc.title) id,
         relayNoteString port (effectiveTitle doc.title) id] := by
  simp [getFileUrl, h]

/-- Witness for C8 on the demo document titled "Demo". -/
theorem get_file_url_success_payloads_witness :
    ((getFileUrl "d" 60000 (.ok ()) demoState).1).isError = false ∧
      ((getFileUrl "d" 60000 (.ok ()) demoState).1).content =
        [fileUrlString 60000 (effectiveTitle demoDoc.title) "d",
         relayNoteString 60000 (effectiveTitle demoDoc.title) "d"] :=
  get_file_url_success_payloads demoState "d" 60000 demoDoc rfl

/-- Counterexample to C8 as stated: for a document whose title `T` is the
empty string, the successful call's first payload is not the URL built
from `encodeURIComponent T` — the handler substitutes the default title
first. -/
theorem get_file_url_title_counterexample :
    ((getFileUrl "d" 60000 (.ok ()) emptyTitleState).1).isError = false ∧
      ((getFileUrl "d" 60000 (.ok ()) emptyTitleState).1).content.head? ≠
        some ("http://localhost:" ++ toString (60000 : Nat) ++ "/" ++
          encodeURIComponent "" ++ "-" ++ "d" ++ ".pptx") := by
  refine ⟨by decide, by decide⟩

/-- Counterexample to C2 as stated: after create (`"d"`) → add-slide
(`"s1"`) → successful get-file-url, the slide `"s1"` is still in the
slide registry while its parent document `"d"` is gone — finalize only
deletes the slide-registry entry keyed by the document id itself. -/
theorem slide_survives_finalize_counterexample :
    (run orphanTrace).slides = [("s1", ⟨"d"⟩)] ∧
      (run orphanTrace).instances = [] ∧
      slideParentsLive (run orphanTrace) = false := by
  refine ⟨by decide, by decide, by decide⟩

/-- C2 (amended): a slide-registry entry is created only by `add-slide`
against a document currently in the registry (and records that document
as parent); a finalizing `get-file-url` removes the document and removes
from the slide registry only the entry keyed by the document's own id,
so slides stored under their distinct ids survive their parent's
finalization. -/
theorem slide_registry_lifecycle (s : ServerState) :
    (∀ id sid, lookupKey s.instances id = none → (addSlideOp id sid s).2 = s) ∧
      (∀ id sid doc, lookupKey s.instances id = some doc →
        (addSlideOp id sid s).2 = ⟨s.instances, setKey s.slides sid ⟨id⟩⟩) ∧
      (∀ id port wr env s', getFileUrl id port wr s = (env, s') →
        env.isError = false →
        s' = ⟨eraseKey s.instances id, eraseKey s.slides id⟩) := by
  refine ⟨?_, ?_, ?_⟩
  · intro id sid h
    simp [addSlideOp, h]
  · intro id sid doc h
    simp [addSlideOp, h]
  · intro id port wr env s' h hok
    have henv : (getFileUrl id port wr s).1 = env := congrArg Prod.fst h
    have hst : (getFileUrl id port wr s).2 = s' := congrArg Prod.snd h
    subst henv
    subst hst
    cases hl : lookupKey s.instances id with
    | none => simp [getFileUrl, hl] at hok
    | some doc' =>
        cases wr with
        | error e => simp [getFileUrl, hl] at hok
        | ok u =>
            cases u
            simp [getFileUrl, hl]

/-- Witness for C2 (amended): add-slide on a missing id is a no-op,
add-slide on the demo document stores the slide with parent `"d"`, and
finalizing the demo document erases the `"d"` key from both maps. -/
theorem slide_registry_lifecycle_witness :
    (addSlideOp "x" "s0" initState).2 = initState ∧
      (addSlideOp "d" "s2" demoState).2 =
        ⟨demoState.instances, setKey demoState.slides "s2" ⟨"d"⟩⟩ ∧
      (getFileUrl "d" 60000 (.ok ()) demoState).2 =
        ⟨eraseKey demoState.instances "d", eraseKey demoState.slides "d"⟩ :=
  ⟨(slide_registry_lifecycle initState).1 "x" "s0" rfl,
   (slide_registry_lifecycle demoState).2.1 "d" "s2" demoDoc rfl,
   (slide_registry_lifecycle demoState).2.2 "d" 60000 (.ok ())
     (getFileUrl "d" 60000 (.ok ()) demoState).1
     (getFileUrl "d" 60000 (.ok ()) demoState).2 rfl (by decide)⟩

/-- Counterexample to C3 as stated: with valid arguments on a registered
slide, the add-shape handler does not hand the collaborator the full
validated bundle (align, flips, line, rectRadius, rotate are absent from
the options object), and the add-text handler does not hand over the
validated font face. -/
theorem full_bundle_not_passed_counterexample :
    (dispatchAddShape demoShapeArgs (.ok ()) demoState).2.2 ≠
        some (.shape demoShapeArgs.shape (specShapeFullOpts demoShapeArgs)) ∧
      (dispatchAddText demoTextArgs (.ok ()) demoState).2.2 ≠
        some (.text demoTextArgs.text (specTextFullOpts demoTextArgs)) := by
  refine ⟨by decide, by decide⟩

/-- C3 (amended): for schema-valid arguments on a registered slide the
handlers do delegate to the collaborator, but add-shape passes only
`x, y, w, h, fill` — the validated `align`, `flipH`, `flipV`, `line`,
`rectRadius`, `rotate` are dropped — and add-text passes the validated
bundle minus the font face. -/
theorem options_passed_to_collaborator (a : AddShapeArgs) (t : AddTextArgs)
    (s : ServerState) (rr rr' : Except String Unit)
    (hva : AddShapeValid a) (hla : (lookupKey s.slides a.slideId).isSome = true)
    (hvt : AddTextValid t) (hlt : (lookupKey s.slides t.slideId).isSome = true) :
    (dispatchAddShape a rr s).2.2 =
        some (.shape a.shape
          { specShapeFullOpts a with
              align := none
              flipH := none
              flipV := none
              line := none
              rectRadius := none
              rotate := none }) ∧
      (dispatchAddText t rr' s).2.2 =
        some (.text t.text { specTextFullOpts t with fontFace := none }) := by
  obtain ⟨sa, hsa⟩ := Option.isSome_iff_exists.mp hla
  obtain ⟨st, hst⟩ := Option.isSome_iff_exists.mp hlt
  constructor
  · cases rr <;>
      simp [dispatchAddShape, hva, hsa, shapePassedOpts, specShapeFullOpts]
  · cases rr' <;>
      simp [dispatchAddText, hvt, hst, textPassedOpts, specTextFullOpts]

/-- Witness for C3 (amended) on the demo slide. -/
theorem options_passed_to_collaborator_witness :
    (dispatchAddShape demoShapeArgs (.ok ()) demoState).2.2 =
        some (.shape demoShapeArgs.shape
          { specShapeFullOpts demoShapeArgs with
              align := none
              flipH := none
              flipV := none
              line := none
              rectRadius := none
              rotate := none }) ∧
      (dispatchAddText demoTextArgs (.ok ()) demoState).2.2 =
        some (.text demoTextArgs.text
          { specTextFullOpts demoTextArgs with fontFace := none }) :=
  options_passed_to_collaborator demoShapeArgs demoTextArgs demoState
    (.ok ()) (.ok ()) (by decide) (by decide) (by decide) (by decide)

/-- C7: the `[0, 10]` bound on a table border's `pt` is inclusive above:
the same call with `pt = 11` fails validation, while with `pt = 10` it
passes validation and, on a registered slide with a healthy collaborator,
succeeds. -/
theorem table_border_pt_bound_inclusive (a : AddTableArgs) (b : TableBorder)
    (s : ServerState)
    (hb : a.border = some b) (hv : AddTableValid a)
    (hl : (lookupKey s.slides a.slideId).isSome = true) :
    ¬ AddTableValid (setBorderPt a 11) ∧
      AddTableValid (setBorderPt a 10) ∧
      (dispatchAddTable (setBorderPt a 10) (.ok ()) s).1 =
        .reply ⟨["Table added to slide \"" ++ a.slideId ++ "\"."], false⟩ := by
  obtain ⟨hdata, hx, hy, hw, hh, hcw, hrh, hal, hbord, hfill⟩ := hv
  rw [hb] at hbord
  have hbv : borderValid b := hbord
  obtain ⟨sl, hsl⟩ := Option.isSome_iff_exists.mp hl
  have hb10 : (setBorderPt a 10).border = some { b with pt := 10 } := by
    simp [setBorderPt, hb]
  have h10 : AddTableValid (setBorderPt a 10) := by
    refine ⟨hdata, hx, hy, hw, hh, hcw, hrh, hal, ?_, hfill⟩
    rw [hb10]
    refine ⟨hbv.1, ?_, ?_⟩
    · show (0 : ℚ) ≤ 10
      decide
    · show (10 : ℚ) ≤ 10
      decide
  refine ⟨?_, h10, ?_⟩
  · intro h11
    obtain ⟨-, -, -, -, -, -, -, -, hb11, -⟩ := h11
    have hbeq : (setBorderPt a 11).border = some { b with pt := 11 } := by
      simp [setBorderPt, hb]
    rw [hbeq] at hb11
    have hle : (11 : ℚ) ≤ 10 := hb11.2.2
    exact absurd hle (by decide)
  · have hslid : (setBorderPt a 10).slideId = a.slideId := rfl
    simp [dispatchAddTable, h10, hslid, hsl]

/-- Witness for C7 on the demo table call, whose border pt is 1. -/
theorem table_border_pt_bound_inclusive_witness :
    ¬ AddTableValid (setBorderPt demoTableArgs 11) ∧
      AddTableValid (setBorderPt demoTableArgs 10) ∧
      (dispatchAddTable (setBorderPt demoTableArgs 10) (.ok ()) demoState).1 =
        .reply ⟨["Table added to slide \"" ++ demoTableArgs.slideId ++ "\"."],
          false⟩ :=
  table_border_pt_bound_inclusive demoTableArgs ⟨"solid", 1, "000000"⟩
    demoState rfl (by decide) (by decide)

end PptxMcp
